import Mathlib

/-!
# Verification of the increasevol job pipeline

Shallow embedding of the job-processing core of `increasevol.py`:
the asynchronous process launchers (`ProcessLauncher`, `FfprobeLauncher`,
`FfmpegLauncher`), the per-file `Job` state machine, and the `JobsQueue`
scheduler.  Python floats are modelled as rationals (`ℚ`), the file system
as a list of existing paths, and the fallible OS calls (`tempfile.mkstemp`,
`os.remove`, `os.rename`) through an explicit outcome oracle.  GTK model
rows are flattened into the job record (status pixbuf becomes a status
enum); wall-clock timestamps and the estimated-time strings are not
modelled, no claim mentions them.
-/

namespace Increasevol

/-! ## Python-level helpers: `str.find`, slicing, `split`, `int()`, `float()` -/

/-- Does `sub` occur at the head of `cs`? (used to model `str.find`). -/
def charsStartWith : List Char → List Char → Bool
  | _, [] => true
  | [], _ :: _ => false
  | a :: as, b :: bs => a = b && charsStartWith as bs

/-- First index `≥ idx` (scanning `cs`) where `sub` starts, as an offset from `idx`. -/
def findAux (cs sub : List Char) (idx : Nat) : Option Nat :=
  if charsStartWith cs sub then some idx
  else
    match cs with
    | [] => none
    | _ :: rest => findAux rest sub (idx + 1)

/-- Python `haystack.find(sub, start)`: lowest index `≥ start` where `sub`
occurs, `-1` when absent.  `start` is assumed already non-negative (all call
sites in the source pass a non-negative start). -/
def pyFind (cs sub : List Char) (start : Int) : Int :=
  let s := start.toNat
  match findAux (cs.drop s) sub s with
  | some i => (i : Int)
  | none => -1

/-- Python slice `cs[a:b]`: negative indices wrap by the length, then both
bounds are clamped to `[0, n]`. -/
def pySliceList (cs : List Char) (a b : Int) : List Char :=
  let n : Int := (cs.length : Int)
  let norm : Int → Int := fun i => if i < 0 then i + n else i
  let lo := max 0 (min n (norm a))
  let hi := max 0 (min n (norm b))
  (cs.take hi.toNat).drop lo.toNat

/-- Python `s.split(c)` for a single-character separator (keeps empty groups). -/
def splitOnChar (c : Char) : List Char → List (List Char)
  | [] => [[]]
  | a :: rest =>
    let r := splitOnChar c rest
    if a = c then [] :: r
    else
      match r with
      | [] => [[a]]
      | g :: gs => (a :: g) :: gs

/-- Decimal digit value. -/
def digitVal (c : Char) : Option Nat :=
  if c.isDigit then some (c.toNat - 48) else none

/-- Parse a non-empty all-digit string as a natural number. -/
def parseNatDigits (cs : List Char) : Option Nat :=
  cs.foldl
    (fun acc c =>
      match acc, digitVal c with
      | some n, some d => some (n * 10 + d)
      | _, _ => none)
    (if cs.isEmpty then none else some 0)

/-- Python `int(s)` on the plain decimal strings the pipeline produces
(optional sign, then digits); other CPython niceties (whitespace,
underscores) are irrelevant at every call site. -/
def pyIntChars (cs : List Char) : Option Int :=
  match cs with
  | '-' :: rest => (parseNatDigits rest).map (fun n => -(n : Int))
  | '+' :: rest => (parseNatDigits rest).map (fun n => (n : Int))
  | _ => (parseNatDigits cs).map (fun n => (n : Int))

/-- Parse `intpart` or `intpart.fracpart` as an exact rational. -/
def parseUnsignedFloat (cs : List Char) : Option ℚ :=
  match splitOnChar '.' cs with
  | [ip] => (parseNatDigits ip).map (fun n => (n : ℚ))
  | [ip, fp] =>
    match parseNatDigits ip, parseNatDigits fp with
    | some n, some f => some ((n : ℚ) + (f : ℚ) / ((10 : ℚ) ^ fp.length))
    | _, _ => none
  | _ => none

/-- Python `float(s)` on the decimal strings ffprobe/ffmpeg emit, modelled
exactly as a rational (the source's float rounding is below every tolerance
any claim mentions). -/
def pyFloatChars (cs : List Char) : Option ℚ :=
  match cs with
  | '-' :: rest => (parseUnsignedFloat rest).map (fun q => -q)
  | '+' :: rest => parseUnsignedFloat rest
  | _ => parseUnsignedFloat cs

def pyFloat (s : String) : Option ℚ := pyFloatChars s.toList

/-! ## Process exit events

`ProcessLauncher._on_finished` receives the result of `wait_check_async`.
`ExitEvent.success` is a zero exit; `ExitEvent.failure termLike msg` is a
raised `GLib.GError`, where `termLike` records the source's portability test
`proc.get_if_exited() and not proc.get_successful() and
e.domain == g-spawn-exit-error-quark and e.code == 255`. -/
inductive ExitEvent
  | success
  | failure (termLike : Bool) (message : String)
deriving DecidableEq, Repr

/-! ## FfprobeLauncher -/

/-- Signals a `FfprobeLauncher` can emit. -/
inductive ProbeSignal
  | finished (duration : ℚ)
  | finished_with_error (error : String) (removeTempOutput : Bool)
  | terminated
deriving DecidableEq, Repr

/-- State of `FfprobeLauncher` (fields `_error`, `_duration`, `_n_lines`,
`_cmd` of its own `__init__`, plus `_term_signaled` from `ProcessLauncher`). -/
structure FfprobeLauncher where
  error : Bool
  duration : ℚ
  nLines : Nat
  termSignaled : Bool
  cmd : String
deriving DecidableEq, Repr

/-- `FfprobeLauncher.__init__`; `cmd` is the already-formatted probe command. -/
def FfprobeLauncher.init (cmd : String) : FfprobeLauncher :=
  { error := false, duration := 0, nLines := 0, termSignaled := false, cmd := cmd }

/-- `FfprobeLauncher.at_finalization_with_error`: emits `finished_with_error`
only the first time, guarded by `self._error`. -/
def FfprobeLauncher.at_finalization_with_error (s : FfprobeLauncher) (err : String) :
    FfprobeLauncher × List ProbeSignal :=
  if s.error then (s, [])
  else ({ s with error := true }, [ProbeSignal.finished_with_error err true])

/-- `FfprobeLauncher.at_finalization`: emits `finished` (note: NOT guarded by
`self._error`). -/
def FfprobeLauncher.at_finalization (s : FfprobeLauncher) :
    FfprobeLauncher × List ProbeSignal :=
  (s, [ProbeSignal.finished s.duration])

/-- `FfprobeLauncher.at_termination`. -/
def FfprobeLauncher.at_termination (s : FfprobeLauncher) :
    FfprobeLauncher × List ProbeSignal :=
  (s, [ProbeSignal.terminated])

/-- `FfprobeLauncher.for_each_line`: flag a second line as an error, then try
to parse the line as a float (parse failure is the `except` branch), finally
increment `_n_lines`.  The `str(e)` exception text inside the parse-failure
message is abstracted away; the offending line is kept. -/
def FfprobeLauncher.for_each_line (s : FfprobeLauncher) (line : String) :
    FfprobeLauncher × List ProbeSignal :=
  let r1 :=
    if s.nLines > 0 then
      s.at_finalization_with_error
        ("Error executing ffprobe:\nExpected just one line, got more:\n" ++ line)
    else (s, [])
  let r2 :=
    match pyFloat line with
    | some v => ({ r1.1 with duration := v }, ([] : List ProbeSignal))
    | none =>
      r1.1.at_finalization_with_error
        ("Error executing ffprobe:\nTrying to read a float got error:\nin line:\n" ++ line)
  ({ r2.1 with nLines := r2.1.nLines + 1 }, r1.2 ++ r2.2)

/-- `ProcessLauncher._on_finished` specialised to `FfprobeLauncher`:
classify the exit event into exactly one callback. -/
def FfprobeLauncher.on_finished (s : FfprobeLauncher) (e : ExitEvent) :
    FfprobeLauncher × List ProbeSignal :=
  match e with
  | ExitEvent.success => s.at_finalization
  | ExitEvent.failure termLike msg =>
    if s.termSignaled && termLike then s.at_termination
    else s.at_finalization_with_error (msg ++ "\n\nCommand:\n" ++ s.cmd)

/-- `ProcessLauncher.terminate` (state part; the `SIGTERM` it sends is the
external side effect that later yields the exit event). -/
def FfprobeLauncher.terminate (s : FfprobeLauncher) : FfprobeLauncher :=
  { s with termSignaled := true }

/-- Deliver a list of output lines in order (the read loop of `_on_data`). -/
def FfprobeLauncher.processLines (s : FfprobeLauncher) :
    List String → FfprobeLauncher × List ProbeSignal
  | [] => (s, [])
  | l :: rest =>
    let r1 := s.for_each_line l
    let r2 := r1.1.processLines rest
    (r2.1, r1.2 ++ r2.2)

/-- One complete supervised run: the delivered output lines followed by the
single process-exit notification. -/
def FfprobeLauncher.runEvents (s : FfprobeLauncher) (lines : List String)
    (e : ExitEvent) : FfprobeLauncher × List ProbeSignal :=
  let r1 := s.processLines lines
  let r2 := r1.1.on_finished e
  (r2.1, r1.2 ++ r2.2)

/-! ## FfmpegLauncher -/

/-- State of `FfmpegLauncher` (fields `_error`, `_duration`, `_cmd`, plus
`_term_signaled` from `ProcessLauncher`). -/
structure FfmpegLauncher where
  error : Bool
  duration : ℚ
  termSignaled : Bool
  cmd : String
deriving DecidableEq, Repr

/-- `FfmpegLauncher.__init__` as used by `Job._increase_volume`. -/
def FfmpegLauncher.init (duration : ℚ) (cmd : String) : FfmpegLauncher :=
  { error := false, duration := duration, termSignaled := false, cmd := cmd }

/-- `ProcessLauncher.terminate` (state part) for the ffmpeg launcher. -/
def FfmpegLauncher.terminate (s : FfmpegLauncher) : FfmpegLauncher :=
  { s with termSignaled := true }

/-- The three statements of the source that slice the elapsed-time field out
of a progress line and turn it into seconds:
`time_beg = line.find(' time=') + 6`, `time_end = line.find(' ', time_beg)`,
`time_str = line[time_beg:time_end]`, `h, m, s = time_str.split(':')`,
`int(h) * 3600 + int(m) * 60 + float(s)`.
`none` models a raised `ValueError` (no update is emitted then). -/
def extractElapsed (line : String) : Option ℚ :=
  let cs := line.toList
  let tBeg : Int := pyFind cs (String.toList " time=") 0 + 6
  let tEnd : Int := pyFind cs (String.toList " ") tBeg
  let timeStr := pySliceList cs tBeg tEnd
  match splitOnChar ':' timeStr with
  | [hS, mS, sS] =>
    match pyIntChars hS, pyIntChars mS, pyFloatChars sS with
    | some h, some m, some sec => some ((h : ℚ) * 3600 + (m : ℚ) * 60 + sec)
    | _, _, _ => none
  | _ => none

/-- `FfmpegLauncher.for_each_line`: on a line starting with the progress
marker `frame=`, extract the elapsed time and emit
`progress * 100 / self._duration` as an `update_state` signal (`some`);
every other line emits nothing (`none`). -/
def FfmpegLauncher.for_each_line (s : FfmpegLauncher) (line : String) : Option ℚ :=
  if charsStartWith line.toList (String.toList "frame=") then
    (extractElapsed line).map (fun progress => progress * 100 / s.duration)
  else none

/-! ## The file system and the OS-call oracle -/

/-- The set of existing paths, as a list. -/
structure Fs where
  files : List String
deriving DecidableEq, Repr

/-- `os.path.exists`. -/
def Fs.containsPath (fs : Fs) (p : String) : Bool := fs.files.contains p

/-- `os.remove` (successful case). -/
def Fs.removePath (fs : Fs) (p : String) : Fs :=
  ⟨fs.files.filter (fun q => q ≠ p)⟩

/-- File creation. -/
def Fs.addPath (fs : Fs) (p : String) : Fs := ⟨p :: fs.files⟩

/-- `os.rename src dst` (successful case). -/
def Fs.renamePath (fs : Fs) (src dst : String) : Fs :=
  (fs.removePath src).addPath dst

/-- Outcomes of the fallible OS calls a job performs, decided by the
environment: `tempPathChoice` is the fresh path `tempfile.mkstemp` creates
(`none` = it raised), `removeInputOk` the outcome of `os.remove(file_name)`
in the commit phase, `renameOk` the outcome of the commit's `os.rename`. -/
structure OsOracle where
  tempPathChoice : Option String
  removeInputOk : Bool
  renameOk : Bool
deriving DecidableEq, Repr

/-! ## Job -/

/-- `JobStatus` of the source (the pixbuf shown in the list widget is a
bijective image of this enum). -/
inductive JobStatus
  | running
  | queued
  | failed
  | finished
  | terminated
deriving DecidableEq, Repr

/-- Signals a `Job` emits towards `JobsQueue`. -/
inductive JobSignal
  | job_finished (path : String)
  | job_finished_with_error (path : String) (error : String)
deriving DecidableEq, Repr

/-- A `Job` together with the model-row fields it owns (status, progress,
error string, output file).  `transcodeStarted` is a history variable
recording that `_increase_volume` constructed an `FfmpegLauncher` and
scheduled its `run` (the observable launch of the transcode phase); the
source itself only holds the launcher in `self._ffmpeg`, which is reset to
`None` on completion. -/
structure Job where
  id_ : Nat
  fileName : String
  outputFileName : String
  duration : ℚ
  tempOutput : Option String
  keepOriginal : Bool
  outputPreStr : String
  outputSufStr : String
  ffprobe : Option FfprobeLauncher
  ffmpeg : Option FfmpegLauncher
  status : JobStatus
  progress : ℚ
  errorString : String
  transcodeStarted : Bool
deriving DecidableEq, Repr

/-- `Job.__init__` (the fields claims touch; the per-job copies of gain,
encoder, quality and subtitle flags only feed the ffmpeg command string). -/
def Job.create (id : Nat) (file : String) (keep : Bool) (pre suf : String) : Job :=
  { id_ := id, fileName := file, outputFileName := "", duration := 0, tempOutput := none,
    keepOriginal := keep, outputPreStr := pre, outputSufStr := suf,
    ffprobe := none, ffmpeg := none, status := JobStatus.queued, progress := 0,
    errorString := "", transcodeStarted := false }

/-- `Job.get_duration`: mark the row RUNNING and start the probe. -/
def Job.get_duration (j : Job) : Job :=
  { j with status := JobStatus.running,
           ffprobe := some (FfprobeLauncher.init ("ffprobe " ++ j.fileName)) }

/-- `Job._manage_error`: drop both launchers, mark FAILED, record the error,
optionally delete the temp file if it exists (the source swallows a failing
delete, which leaves the terminal state identical), and emit
`job_finished_with_error`. -/
def Job.manage_error (j : Job) (fs : Fs) (err : String)
    (removeTempOutput : Bool) : Job × Fs × List JobSignal :=
  let j1 := { j with ffprobe := none, ffmpeg := none,
                     status := JobStatus.failed, errorString := err }
  let fs1 :=
    if removeTempOutput then
      match j.tempOutput with
      | some t => if fs.containsPath t then fs.removePath t else fs
      | none => fs
    else fs
  (j1, fs1, [JobSignal.job_finished_with_error j.fileName err])

/-- `Job._manage_termination`: drop both launchers, mark TERMINATED and emit
`job_finished`. -/
def Job.manage_termination (j : Job) : Job × List JobSignal :=
  ({ j with ffprobe := none, ffmpeg := none, status := JobStatus.terminated },
   [JobSignal.job_finished j.fileName])

/-- `Job.terminate`: forward to whichever launcher is alive; a `None`
launcher is skipped (so the call is a no-op then, and it never raises). -/
def Job.terminate (j : Job) : Job :=
  { j with ffprobe := j.ffprobe.map FfprobeLauncher.terminate,
           ffmpeg := j.ffmpeg.map FfmpegLauncher.terminate }

/-- `os.path.split` for POSIX paths with no trailing separator: head is
everything before the last `/` (empty when there is none), tail everything
after it. -/
def pathSplit (path : String) : String × String :=
  let cs := path.toList
  let base := (cs.reverse.takeWhile (fun c => c ≠ '/')).reverse
  (String.mk (cs.take (cs.length - (base.length + 1))), String.mk base)

/-- `os.path.splitext`: split at the last `.` of the basename, provided the
basename has a non-dot character before it (so dotfiles keep their name). -/
def pathSplitExt (path : String) : String × String :=
  let cs := path.toList
  let base := (cs.reverse.takeWhile (fun c => c ≠ '/')).reverse
  let afterDotRev := base.reverse.takeWhile (fun c => c ≠ '.')
  if afterDotRev.length = base.length then (path, "")
  else
    let dotIdx := base.length - (afterDotRev.length + 1)
    if (base.take dotIdx).any (fun c => c ≠ '.') then
      let extLen := afterDotRev.length + 1
      (String.mk (cs.take (cs.length - extLen)), String.mk (cs.drop (cs.length - extLen)))
    else (path, "")

/-- `Job._increase_volume`, the handler of the probe's `finished` signal:
clear the probe, store the duration, and return immediately when it is zero;
otherwise compute (for keep-original jobs) the target output name and fail if
it already exists; then create the temporary output file (`mkstemp`, failing
with the temp-creation error) and construct and schedule the
`FfmpegLauncher`. -/
def Job.increase_volume (j0 : Job) (fs : Fs) (o : OsOracle)
    (duration : ℚ) : Job × Fs × List JobSignal :=
  let j := { j0 with ffprobe := none, duration := duration }
  if duration = 0 then (j, fs, [])
  else
    let j :=
      if j.keepOriginal then
        let dn := pathSplit j.fileName
        let ne := pathSplitExt dn.2
        { j with outputFileName :=
            dn.1 ++ "/" ++ j.outputPreStr ++ ne.1 ++ j.outputSufStr ++ ne.2 }
      else j
    if j.keepOriginal && fs.containsPath j.outputFileName then
      j.manage_error fs ("Output file \"" ++ j.outputFileName ++ "\" exists.") false
    else
      match o.tempPathChoice with
      | none => j.manage_error fs "Error creating temporal file:\n" true
      | some t =>
        let j1 := { j with tempOutput := some t, transcodeStarted := true,
                           ffmpeg := some (FfmpegLauncher.init duration
                             ("ffmpeg " ++ j.fileName ++ " " ++ t)) }
        (j1, fs.addPath t, [])

/-- `Job._conversion_finished`, the handler of ffmpeg's `finished` signal:
mark FINISHED at 100%, then commit.  Keep-original: fail (keeping the temp
file) when the target now exists, else rename temp to target; the rename
branch emits `job_finished` in a `finally:` even when the rename failed.
Not-keep-original: remove the original (failure preserves the temp file and
emits only the error signal), then rename temp onto the original path, again
with `job_finished` emitted in a `finally:`.  The `str(e)` exception texts
at the end of the messages are abstracted away. -/
def Job.conversion_finished (j0 : Job) (fs : Fs) (o : OsOracle) :
    Job × Fs × List JobSignal :=
  let j := { j0 with ffmpeg := none, status := JobStatus.finished, progress := 100 }
  let temp := j.tempOutput.getD ""
  if j.keepOriginal then
    if fs.containsPath j.outputFileName then
      j.manage_error fs
        ("File \"" ++ j.outputFileName ++ "\" exists.\nNot renaming \"" ++ temp
          ++ "\" to\n\"" ++ j.outputFileName ++ "\"") false
    else
      if o.renameOk then
        (j, fs.renamePath temp j.outputFileName, [JobSignal.job_finished j.fileName])
      else
        let r := j.manage_error fs
          ("Error renaming \"" ++ temp ++ "\" to\n\"" ++ j.outputFileName ++ "\":\n\n") false
        (r.1, r.2.1, r.2.2 ++ [JobSignal.job_finished j.fileName])
  else
    if o.removeInputOk then
      let fs1 := fs.removePath j.fileName
      if o.renameOk then
        (j, fs1.renamePath temp j.fileName, [JobSignal.job_finished j.fileName])
      else
        let r := j.manage_error fs1
          ("Error renaming \"" ++ temp ++ "\" to\n\"" ++ j.fileName ++ "\":\n\n") false
        (r.1, r.2.1, r.2.2 ++ [JobSignal.job_finished j.fileName])
    else
      j.manage_error fs
        ("Error removing \"" ++ j.fileName
          ++ "\"\nPreserving temporal output file:\n\"" ++ temp ++ "\"\n\n") false

/-- Dispatch one probe signal to the handler `Job.get_duration` connected to
it (`finished → _increase_volume`, `finished_with_error → _manage_error`,
`terminated → _manage_termination`). -/
def Job.onProbeSignal (j : Job) (fs : Fs) (o : OsOracle) :
    ProbeSignal → Job × Fs × List JobSignal
  | ProbeSignal.finished d => j.increase_volume fs o d
  | ProbeSignal.finished_with_error e r => j.manage_error fs e r
  | ProbeSignal.terminated =>
    let r := j.manage_termination
    (r.1, fs, r.2)

/-- Deliver a list of probe signals in emission order. -/
def Job.processProbeSignals (j : Job) (fs : Fs) (o : OsOracle) :
    List ProbeSignal → Job × Fs × List JobSignal
  | [] => (j, fs, [])
  | s :: rest =>
    let r1 := j.onProbeSignal fs o s
    let r2 := r1.1.processProbeSignals r1.2.1 o rest
    (r2.1, r2.2.1, r1.2.2 ++ r2.2.2)

/-! ## JobsQueue -/

/-- The per-job configuration snapshot `Job.__init__` copies out of the
global `config` (only the fields any claim touches). -/
structure Config where
  maxJobs : Nat
  keepOriginal : Bool
  outputPreStr : String
  outputSufStr : String
deriving DecidableEq, Repr

/-- State of `JobsQueue`: the id counter `_job_id`, the FIFO backlog
`_job_queue` and the admitted list `_running_jobs` (`set_model` is assumed to
have been called, as `main` does before any submission). -/
structure JobsQueue where
  jobId : Nat
  jobQueue : List Job
  runningJobs : List Job
deriving DecidableEq, Repr

def JobsQueue.empty : JobsQueue := { jobId := 0, jobQueue := [], runningJobs := [] }

/-- `JobsQueue._is_queued_or_running`: is `path` the file name of some
running or queued job? -/
def JobsQueue.is_queued_or_running (q : JobsQueue) (path : String) : Bool :=
  (q.runningJobs.map Job.fileName ++ q.jobQueue.map Job.fileName).contains path

/-- `JobsQueue._launch_job`: create the job, append it to `_running_jobs`
and call `get_duration` (which marks it RUNNING and starts the probe). -/
def JobsQueue.launch_job (cfg : Config) (q : JobsQueue) (path : String) : JobsQueue :=
  let j := (Job.create q.jobId path cfg.keepOriginal cfg.outputPreStr cfg.outputSufStr).get_duration
  { q with jobId := q.jobId + 1, runningJobs := q.runningJobs ++ [j] }

/-- `JobsQueue._queue_job`: create the job (it stays QUEUED) and append it
to the backlog. -/
def JobsQueue.queue_job (cfg : Config) (q : JobsQueue) (path : String) : JobsQueue :=
  let j := Job.create q.jobId path cfg.keepOriginal cfg.outputPreStr cfg.outputSufStr
  { q with jobId := q.jobId + 1, jobQueue := q.jobQueue ++ [j] }

/-- Result of a submission, reported to the caller of `add_job`
(`duplicate` is the "Duplicated entry" error dialog). -/
inductive AddResult
  | duplicate
  | launched
  | queued
deriving DecidableEq, Repr

/-- `JobsQueue.add_job`: refuse a path that is already queued or running,
otherwise launch immediately while below `config.max_jobs` and queue
otherwise. -/
def JobsQueue.add_job (cfg : Config) (q : JobsQueue) (path : String) :
    JobsQueue × AddResult :=
  if q.is_queued_or_running path then (q, AddResult.duplicate)
  else if cfg.maxJobs ≤ q.runningJobs.length then
    (q.queue_job cfg path, AddResult.queued)
  else
    (q.launch_job cfg path, AddResult.launched)

/-- The loop of `JobsQueue.check_queue`: while the backlog is non-empty and
fewer than `maxJobs` jobs run, `_dequeue_job` pops the backlog head, appends
it to `_running_jobs` and calls `get_duration` on it. -/
def dequeueLoop (maxJobs : Nat) : List Job → List Job → List Job × List Job
  | [], running => ([], running)
  | j :: rest, running =>
    if running.length < maxJobs then
      dequeueLoop maxJobs rest (running ++ [j.get_duration])
    else (j :: rest, running)

/-- `JobsQueue.check_queue`. -/
def JobsQueue.check_queue (cfg : Config) (q : JobsQueue) : JobsQueue :=
  let p := dequeueLoop cfg.maxJobs q.jobQueue q.runningJobs
  { q with jobQueue := p.1, runningJobs := p.2 }

/-- `list.remove(job)` keyed by the unique job id. -/
def removeFirstById : List Job → Nat → List Job
  | [], _ => []
  | j :: rest, i => if j.id_ = i then rest else j :: removeFirstById rest i

/-- `JobsQueue._finished_job`: drop the finished job from `_running_jobs`
and re-check the backlog (invoked for every terminal outcome: the
`job_finished` and, via `_finished_with_error_job`, the
`job_finished_with_error` signals both land here). -/
def JobsQueue.finished_job (cfg : Config) (q : JobsQueue) (id : Nat) : JobsQueue :=
  JobsQueue.check_queue cfg { q with runningJobs := removeFirstById q.runningJobs id }

/-- `JobsQueue.force_launch_queued_jobs`: move every backlog job whose id is
listed straight into `_running_jobs` (calling `get_duration`), ignoring the
concurrency bound. -/
def JobsQueue.force_launch_queued_jobs (q : JobsQueue) (ids : List Nat) : JobsQueue :=
  { q with
    jobQueue := q.jobQueue.filter (fun j => !(ids.contains j.id_)),
    runningJobs := q.runningJobs ++
      ((q.jobQueue.filter (fun j => ids.contains j.id_)).map Job.get_duration) }

/-- `JobsQueue.terminate_jobs`: forward `terminate()` to every running job
whose id is listed (jobs not in `_running_jobs` are untouched). -/
def JobsQueue.terminate_jobs (q : JobsQueue) (ids : List Nat) : JobsQueue :=
  { q with runningJobs :=
      q.runningJobs.map (fun j => if ids.contains j.id_ then j.terminate else j) }

/-- The scheduler operations claim C5 quantifies over: submission, a job's
terminal notification, and an explicit backlog re-check. -/
inductive SchedOp
  | addJob (path : String)
  | finishJob (id : Nat)
  | recheck
deriving DecidableEq, Repr

def applyOp (cfg : Config) (q : JobsQueue) : SchedOp → JobsQueue
  | SchedOp.addJob p => (q.add_job cfg p).1
  | SchedOp.finishJob i => q.finished_job cfg i
  | SchedOp.recheck => q.check_queue cfg

def applyOps (cfg : Config) (q : JobsQueue) : List SchedOp → JobsQueue
  | [] => q
  | op :: rest => applyOps cfg (applyOp cfg q op) rest

/-! ## Concrete jobs, traces and counters used by the claim theorems -/

def c1_job : Job := (Job.create 0 "/videos/a.mkv" false "" "").get_duration
def c1_fs : Fs := ⟨["/videos/a.mkv"]⟩
def c1_oracle : OsOracle := ⟨some "/videos/ffmpeg_temp42.mkv", true, true⟩

def c4_job : Job :=
  { Job.create 3 "/videos/d.mkv" true "louder_" "" with
      status := JobStatus.running,
      duration := 12543/100,
      outputFileName := "/videos/louder_d.mkv",
      tempOutput := some "/videos/ffmpeg_tempD.mkv",
      ffmpeg := some (FfmpegLauncher.init (12543/100) "ffmpeg") }
def c4_fs : Fs := ⟨["/videos/d.mkv", "/videos/ffmpeg_tempD.mkv", "/videos/louder_d.mkv"]⟩
def c4_oracle : OsOracle := ⟨none, true, true⟩

def c7_job : Job :=
  { Job.create 4 "/videos/e.mkv" false "" "" with
      status := JobStatus.running,
      duration := 10,
      tempOutput := some "/videos/ffmpeg_tempE.mkv",
      ffmpeg := some (FfmpegLauncher.init 10 "ffmpeg") }
def c7_fs : Fs := ⟨["/videos/e.mkv", "/videos/ffmpeg_tempE.mkv"]⟩
def c7_oracle : OsOracle := ⟨none, true, false⟩

def c2_probe : FfprobeLauncher := FfprobeLauncher.init "ffprobe /videos/a.mkv"
def c2_job : Job :=
  { Job.create 5 "/videos/f.mkv" false "" "" with
      status := JobStatus.running,
      duration := 10,
      tempOutput := some "/videos/ffmpeg_tempF.mkv",
      ffmpeg := some (FfmpegLauncher.init 10 "ffmpeg") }
def c2_fs : Fs := ⟨["/videos/f.mkv", "/videos/ffmpeg_tempF.mkv"]⟩
def c2_oracle : OsOracle := ⟨none, true, false⟩

def c3_job : Job := (Job.create 6 "/videos/c.mkv" false "" "").get_duration
def c3_fs : Fs := ⟨["/videos/c.mkv"]⟩
def c3_oracle : OsOracle := ⟨some "/videos/ffmpeg_tempC.mkv", true, true⟩
def c3_signals : List ProbeSignal :=
  ((FfprobeLauncher.init "ffprobe /videos/c.mkv").runEvents
    ["125.430000", "98"] ExitEvent.success).2

def c8_line : String :=
  "frame=  150 fps= 25 q=28.0 size=    1024kB time=00:00:05.00 bitrate=1677.7kbits/s speed=1.25x"

def c6_cfg : Config := ⟨2, false, "", ""⟩

def c9_cfg : Config := ⟨2, false, "", ""⟩
def c9_afterSubmits : JobsQueue :=
  (((JobsQueue.empty.add_job c9_cfg "/videos/A.mkv").1.add_job
      c9_cfg "/videos/B.mkv").1.add_job c9_cfg "/videos/C.mkv").1
def c9_afterFinish : JobsQueue := c9_afterSubmits.finished_job c9_cfg 0

def countTerminated (l : List ProbeSignal) : Nat :=
  (l.filter (fun s => s = ProbeSignal.terminated)).length

/-! ## Helper lemmas -/

theorem containsPath_removePath_self (fs : Fs) (p : String) :
    (fs.removePath p).containsPath p = false := by
  simp [Fs.removePath, Fs.containsPath, List.contains, List.elem_eq_mem]

theorem containsPath_removePath_ne (fs : Fs) (p a : String) (h : a ≠ p) :
    (fs.removePath p).containsPath a = fs.containsPath a := by
  simp [Fs.removePath, Fs.containsPath, List.contains, List.elem_eq_mem, h]

/-! ## Claim C1 -/

/-- Claim C1 counterexample: a running job whose probe reports duration 0 does NOT
transition to Failed — `_increase_volume` returns early, so the job stays
RUNNING, records no error message and emits no terminal signal at all. -/
theorem C1_counterexample :
    (c1_job.increase_volume c1_fs c1_oracle 0).1.status = JobStatus.running
    ∧ ¬ (c1_job.increase_volume c1_fs c1_oracle 0).1.status = JobStatus.failed
    ∧ (c1_job.increase_volume c1_fs c1_oracle 0).1.errorString = ""
    ∧ (c1_job.increase_volume c1_fs c1_oracle 0).2.2 = [] := by
  decide

/-- Claim C1 (amended): for every job whose duration probe completes successfully
but reports duration == 0, the transcode phase is not started and no temp
file is created, but the job does NOT transition to Failed: it stays in its
current (Running) state with no error message and emits no terminal
signal. -/
theorem C1_amended (j : Job) (fs : Fs) (o : OsOracle)
    (h : j.status = JobStatus.running) :
    (j.increase_volume fs o 0).1.status = JobStatus.running
    ∧ (j.increase_volume fs o 0).1.transcodeStarted = j.transcodeStarted
    ∧ (j.increase_volume fs o 0).1.errorString = j.errorString
    ∧ (j.increase_volume fs o 0).2.1 = fs
    ∧ (j.increase_volume fs o 0).2.2 = [] := by
  unfold Job.increase_volume
  simp [h]

/-- Claim C1 witness: the amended statement instantiated at a concrete job. -/
theorem C1_witness :
    (c1_job.increase_volume c1_fs c1_oracle 0).1.status = JobStatus.running
    ∧ (c1_job.increase_volume c1_fs c1_oracle 0).1.transcodeStarted = c1_job.transcodeStarted
    ∧ (c1_job.increase_volume c1_fs c1_oracle 0).1.errorString = c1_job.errorString
    ∧ (c1_job.increase_volume c1_fs c1_oracle 0).2.1 = c1_fs
    ∧ (c1_job.increase_volume c1_fs c1_oracle 0).2.2 = [] :=
  C1_amended c1_job c1_fs c1_oracle (by decide)

/-! ## Claim C4 -/

/-- Claim C4 counterexample: keep-original job, transcode succeeded, target output
exists at commit time.  The job does end Failed, but the temp file is NOT
removed (`_manage_error` is called with `remove_temp_output=False`): it is
still on disk afterwards, contradicting the claim. -/
theorem C4_counterexample :
    (c4_job.conversion_finished c4_fs c4_oracle).1.status = JobStatus.failed
    ∧ (c4_job.conversion_finished c4_fs c4_oracle).2.1.containsPath
        "/videos/ffmpeg_tempD.mkv" = true := by
  decide

/-- Claim C4 (amended): for every keep-original job whose transcode succeeds but
whose target output path exists at commit time, the job ends Failed with the
output-exists error, the temp file is PRESERVED (not removed) and the input
file is untouched — the file system is left exactly as it was. -/
theorem C4_amended (j : Job) (fs : Fs) (o : OsOracle)
    (hk : j.keepOriginal = true) (he : fs.containsPath j.outputFileName = true) :
    (j.conversion_finished fs o).1.status = JobStatus.failed
    ∧ (j.conversion_finished fs o).1.errorString =
        "File \"" ++ j.outputFileName ++ "\" exists.\nNot renaming \""
          ++ j.tempOutput.getD "" ++ "\" to\n\"" ++ j.outputFileName ++ "\""
    ∧ (j.conversion_finished fs o).2.1 = fs := by
  unfold Job.conversion_finished Job.manage_error
  simp [hk, he]

/-- Claim C4 witness: the amended statement instantiated at a concrete job. -/
theorem C4_witness :
    (c4_job.conversion_finished c4_fs c4_oracle).1.status = JobStatus.failed
    ∧ (c4_job.conversion_finished c4_fs c4_oracle).1.errorString =
        "File \"" ++ c4_job.outputFileName ++ "\" exists.\nNot renaming \""
          ++ c4_job.tempOutput.getD "" ++ "\" to\n\"" ++ c4_job.outputFileName ++ "\""
    ∧ (c4_job.conversion_finished c4_fs c4_oracle).2.1 = c4_fs :=
  C4_amended c4_job c4_fs c4_oracle (by decide) (by decide)

/-! ## Claim C7 -/

/-- Claim C7: not-keep-original job whose transcode succeeded, where the removal
of the original input succeeds but the rename of the temp file fails: the
job ends Failed with the renaming error, the input path no longer exists,
and the temp file still exists at its temp path (error cleanup is invoked
with `remove_temp_output=False`). -/
theorem C7_rename_hazard (j : Job) (fs : Fs) (o : OsOracle) (t : String)
    (hk : j.keepOriginal = false) (ht : j.tempOutput = some t)
    (hrm : o.removeInputOk = true) (hrn : o.renameOk = false)
    (htfs : fs.containsPath t = true) (hne : t ≠ j.fileName) :
    (j.conversion_finished fs o).1.status = JobStatus.failed
    ∧ (j.conversion_finished fs o).1.errorString =
        "Error renaming \"" ++ t ++ "\" to\n\"" ++ j.fileName ++ "\":\n\n"
    ∧ (j.conversion_finished fs o).2.1.containsPath j.fileName = false
    ∧ (j.conversion_finished fs o).2.1.containsPath t = true := by
  unfold Job.conversion_finished Job.manage_error
  simp [hk, ht, hrm, hrn, containsPath_removePath_self,
        containsPath_removePath_ne _ _ _ hne, htfs]

/-- Claim C7 witness: the theorem instantiated at a concrete job. -/
theorem C7_witness :
    (c7_job.conversion_finished c7_fs c7_oracle).1.status = JobStatus.failed
    ∧ (c7_job.conversion_finished c7_fs c7_oracle).1.errorString =
        "Error renaming \"" ++ "/videos/ffmpeg_tempE.mkv" ++ "\" to\n\""
          ++ c7_job.fileName ++ "\":\n\n"
    ∧ (c7_job.conversion_finished c7_fs c7_oracle).2.1.containsPath c7_job.fileName = false
    ∧ (c7_job.conversion_finished c7_fs c7_oracle).2.1.containsPath
        "/videos/ffmpeg_tempE.mkv" = true :=
  C7_rename_hazard c7_job c7_fs c7_oracle "/videos/ffmpeg_tempE.mkv"
    (by decide) (by decide) (by decide) (by decide) (by decide) (by decide)

/-! ## Claim C2 -/

/-- Claim C2 is violated by the code.  First conjunct: a probe that emits two
lines and then exits 0 reports BOTH an error outcome (for the second line)
and a success outcome (`at_finalization` is not guarded by the error flag) —
two terminal reports for one supervised process.  Second conjunct: a job
whose commit rename fails emits BOTH `job_finished_with_error` and (from the
`finally:` block) `job_finished` — two terminal callbacks for one job. -/
theorem C2_double_outcome :
    (c2_probe.runEvents ["125.430000", "98"] ExitEvent.success).2 =
      [ProbeSignal.finished_with_error
         "Error executing ffprobe:\nExpected just one line, got more:\n98" true,
       ProbeSignal.finished 98]
    ∧ (c2_job.conversion_finished c2_fs c2_oracle).2.2 =
      [JobSignal.job_finished_with_error "/videos/f.mkv"
         "Error renaming \"/videos/ffmpeg_tempF.mkv\" to\n\"/videos/f.mkv\":\n\n",
       JobSignal.job_finished "/videos/f.mkv"] := by
  decide

/-! ## Claim C3 -/

/-- Claim C3 is violated by the code.  When the probe emits two lines and exits 0,
the job does reach Failed with the "Expected just one line, got more" error,
but the probe's unguarded `finished` signal still fires and
`_increase_volume` then launches the transcode: `transcodeStarted` is true
and an `FfmpegLauncher` is live, contradicting "the transcode phase is never
started". -/
theorem C3_transcode_starts :
    (c3_job.processProbeSignals c3_fs c3_oracle c3_signals).2.2 =
      [JobSignal.job_finished_with_error "/videos/c.mkv"
         "Error executing ffprobe:\nExpected just one line, got more:\n98"]
    ∧ (c3_job.processProbeSignals c3_fs c3_oracle c3_signals).1.status = JobStatus.failed
    ∧ (c3_job.processProbeSignals c3_fs c3_oracle c3_signals).1.transcodeStarted = true
    ∧ (c3_job.processProbeSignals c3_fs c3_oracle c3_signals).1.ffmpeg ≠ none := by
  decide

/-! ## Claim C8 -/

/-- Claim C8: every transcoder output line beginning with the `frame=` marker
whose embedded elapsed-time field parses to `t` seconds yields the progress
update `t * 100 / duration`; every line not beginning with the marker yields
no update; and the concrete line with `time=00:00:05.00` at duration 125.43
yields `50000/12543 ≈ 3.986` (strictly between 3.986 and 3.9863). -/
theorem C8_progress :
    (∀ (m : FfmpegLauncher) (line : String),
        charsStartWith line.toList (String.toList "frame=") = false →
        m.for_each_line line = none)
    ∧ (∀ (m : FfmpegLauncher) (line : String) (t : ℚ),
        charsStartWith line.toList (String.toList "frame=") = true →
        extractElapsed line = some t →
        m.for_each_line line = some (t * 100 / m.duration))
    ∧ (FfmpegLauncher.init (12543/100) "ffmpeg").for_each_line c8_line
        = some (50000 / 12543)
    ∧ (3986/1000 : ℚ) < 50000 / 12543
    ∧ (50000 / 12543 : ℚ) < 39863/10000 := by
  refine ⟨?_, ?_, ?_, by norm_num, by norm_num⟩
  · intro m line h
    unfold FfmpegLauncher.for_each_line
    simp only [h]
    simp
  · intro m line t h1 h2
    unfold FfmpegLauncher.for_each_line
    simp only [h1, h2]
    simp
  · have h : extractElapsed c8_line =
        some ((((0:ℤ):ℚ)) * 3600 + (((0:ℤ):ℚ)) * 60
          + (((5:ℕ):ℚ) + ((0:ℕ):ℚ) / 10 ^ 2)) := rfl
    have hm : charsStartWith c8_line.toList (String.toList "frame=") = true := by
      decide
    unfold FfmpegLauncher.for_each_line
    rw [hm, h]
    simp only [if_true, Option.map]
    norm_num [FfmpegLauncher.init]

/-- Claim C8 witness: the marker-line part of the theorem instantiated at a
concrete line (`time=00:01:40.50`, elapsed 100.5 s, duration 100 s). -/
theorem C8_witness :
    charsStartWith (String.toList "frame=1 time=00:01:40.50 x")
      (String.toList "frame=") = true
    ∧ extractElapsed "frame=1 time=00:01:40.50 x" =
        some ((((0:ℤ):ℚ)) * 3600 + (((1:ℤ):ℚ)) * 60
          + (((40:ℕ):ℚ) + ((50:ℕ):ℚ) / 10 ^ 2))
    ∧ (FfmpegLauncher.init 100 "ffmpeg").for_each_line "frame=1 time=00:01:40.50 x"
        = some (((((0:ℤ):ℚ)) * 3600 + (((1:ℤ):ℚ)) * 60
            + (((40:ℕ):ℚ) + ((50:ℕ):ℚ) / 10 ^ 2)) * 100
          / (FfmpegLauncher.init 100 "ffmpeg").duration) :=
  ⟨by decide, rfl,
   C8_progress.2.1 (FfmpegLauncher.init 100 "ffmpeg") "frame=1 time=00:01:40.50 x"
     _ (by decide) rfl⟩

/-! ## Claim C5 -/

theorem removeFirstById_length_le (l : List Job) (i : Nat) :
    (removeFirstById l i).length ≤ l.length := by
  induction l with
  | nil => simp [removeFirstById]
  | cons j rest ih =>
    simp only [removeFirstById]
    split
    · simp
    · simpa using Nat.succ_le_succ ih

theorem dequeueLoop_length_le (m : Nat) (queue running : List Job)
    (h : running.length ≤ m) : (dequeueLoop m queue running).2.length ≤ m := by
  induction queue generalizing running with
  | nil => simpa [dequeueLoop] using h
  | cons j rest ih =>
    simp only [dequeueLoop]
    split
    · next hlt => exact ih _ (by simpa using Nat.succ_le_of_lt hlt)
    · simpa using h

theorem applyOp_length_le (cfg : Config) (q : JobsQueue) (op : SchedOp)
    (h : q.runningJobs.length ≤ cfg.maxJobs) :
    (applyOp cfg q op).runningJobs.length ≤ cfg.maxJobs := by
  cases op with
  | addJob p =>
    show (q.add_job cfg p).1.runningJobs.length ≤ cfg.maxJobs
    unfold JobsQueue.add_job JobsQueue.queue_job JobsQueue.launch_job
    split
    · exact h
    · split
      · simpa using h
      · next hlt =>
        simpa using Nat.succ_le_of_lt (Nat.lt_of_not_le hlt)
  | finishJob i =>
    show (q.finished_job cfg i).runningJobs.length ≤ cfg.maxJobs
    unfold JobsQueue.finished_job JobsQueue.check_queue
    exact dequeueLoop_length_le _ _ _
      (Nat.le_trans (removeFirstById_length_le q.runningJobs i) h)
  | recheck =>
    show (q.check_queue cfg).runningJobs.length ≤ cfg.maxJobs
    unfold JobsQueue.check_queue
    exact dequeueLoop_length_le _ _ _ h

theorem applyOps_length_le (cfg : Config) (q : JobsQueue) (ops : List SchedOp)
    (h : q.runningJobs.length ≤ cfg.maxJobs) :
    (applyOps cfg q ops).runningJobs.length ≤ cfg.maxJobs := by
  induction ops generalizing q with
  | nil => exact h
  | cons op rest ih =>
    exact ih _ (applyOp_length_le cfg q op h)

/-- Claim C5: starting from the empty scheduler, every sequence of submissions
(`add_job`), terminal notifications (`_finished_job`) and backlog re-checks
(`check_queue`) keeps the number of running jobs at or below
`config.max_jobs`; only `force_launch_queued_jobs` — deliberately excluded
from these operations — can exceed the bound. -/
theorem C5_bound (cfg : Config) (ops : List SchedOp) :
    (applyOps cfg JobsQueue.empty ops).runningJobs.length ≤ cfg.maxJobs := by
  exact applyOps_length_le cfg JobsQueue.empty ops (Nat.zero_le _)

/-! ## Claim C6 -/

/-- Claim C6: submitting a path that is already queued or running yields the
duplicate error and leaves the scheduler untouched (no second job); a path
not currently queued or running is accepted — a fresh job is created (the id
counter advances), the path becomes queued-or-running, and a second
submission of the same path while the first is still queued or running
returns the duplicate error with the state unchanged. -/
theorem C6_duplicate (cfg : Config) (q : JobsQueue) (p : String) :
    (q.is_queued_or_running p = true → q.add_job cfg p = (q, AddResult.duplicate))
    ∧ (q.is_queued_or_running p = false →
        (q.add_job cfg p).2 ≠ AddResult.duplicate
        ∧ (q.add_job cfg p).1.jobId = q.jobId + 1
        ∧ (q.add_job cfg p).1.is_queued_or_running p = true
        ∧ (q.add_job cfg p).1.add_job cfg p = ((q.add_job cfg p).1, AddResult.duplicate)) := by
  constructor
  · intro h
    unfold JobsQueue.add_job
    simp [h]
  · intro h
    have hmem : ∀ q2 : JobsQueue, q2.is_queued_or_running p = true →
        q2.add_job cfg p = (q2, AddResult.duplicate) := by
      intro q2 h2
      unfold JobsQueue.add_job
      simp [h2]
    have hq : (q.add_job cfg p).1.is_queued_or_running p = true := by
      unfold JobsQueue.add_job JobsQueue.queue_job JobsQueue.launch_job
      simp only [h, Bool.false_eq_true, if_false]
      split
      · simp [JobsQueue.is_queued_or_running, List.contains, List.elem_eq_mem,
              Job.create]
      · simp [JobsQueue.is_queued_or_running, List.contains, List.elem_eq_mem,
              Job.create, Job.get_duration]
    refine ⟨?_, ?_, hq, hmem _ hq⟩
    · unfold JobsQueue.add_job JobsQueue.queue_job JobsQueue.launch_job
      simp only [h, Bool.false_eq_true, if_false]
      split
      · simp
      · simp
    · unfold JobsQueue.add_job JobsQueue.queue_job JobsQueue.launch_job
      simp only [h, Bool.false_eq_true, if_false]
      split
      · simp
      · simp

/-- Claim C6 witness: the acceptance-then-duplicate part instantiated on an empty
scheduler. -/
theorem C6_witness :
    (JobsQueue.empty.add_job c6_cfg "/videos/w.mkv").2 ≠ AddResult.duplicate
    ∧ (JobsQueue.empty.add_job c6_cfg "/videos/w.mkv").1.add_job c6_cfg "/videos/w.mkv"
        = ((JobsQueue.empty.add_job c6_cfg "/videos/w.mkv").1, AddResult.duplicate) :=
  let h := (C6_duplicate c6_cfg JobsQueue.empty "/videos/w.mkv").2 (by decide)
  ⟨h.1, h.2.2.2⟩

/-! ## Claim C9 -/

/-- Claim C9: with `max_jobs = 2`, submitting A, B, C in order makes A and B
Running and C Queued; when A reaches a terminal state (every terminal
outcome funnels into `_finished_job`), C is dequeued FIFO and becomes
Running. -/
theorem C9_fifo :
    c9_afterSubmits.runningJobs.map (fun j => (j.id_, j.fileName, j.status))
      = [(0, "/videos/A.mkv", JobStatus.running), (1, "/videos/B.mkv", JobStatus.running)]
    ∧ c9_afterSubmits.jobQueue.map (fun j => (j.id_, j.fileName, j.status))
      = [(2, "/videos/C.mkv", JobStatus.queued)]
    ∧ c9_afterFinish.runningJobs.map (fun j => (j.id_, j.fileName, j.status))
      = [(1, "/videos/B.mkv", JobStatus.running), (2, "/videos/C.mkv", JobStatus.running)]
    ∧ c9_afterFinish.jobQueue = [] := by
  decide

/-! ## Claim C10 -/

@[simp]
theorem countTerminated_nil : countTerminated [] = 0 := rfl

@[simp]
theorem countTerminated_append (a b : List ProbeSignal) :
    countTerminated (a ++ b) = countTerminated a + countTerminated b := by
  simp [countTerminated]

@[simp]
theorem countTerminated_at_finalization_with_error (s : FfprobeLauncher) (e : String) :
    countTerminated (s.at_finalization_with_error e).2 = 0 := by
  unfold FfprobeLauncher.at_finalization_with_error
  split
  · rfl
  · rfl

theorem countTerminated_for_each_line (s : FfprobeLauncher) (l : String) :
    countTerminated (s.for_each_line l).2 = 0 := by
  unfold FfprobeLauncher.for_each_line
  split <;> split <;> simp

theorem countTerminated_processLines (s : FfprobeLauncher) (lines : List String) :
    countTerminated (s.processLines lines).2 = 0 := by
  induction lines generalizing s with
  | nil => simp [FfprobeLauncher.processLines]
  | cons l rest ih =>
    simp [FfprobeLauncher.processLines, countTerminated_for_each_line, ih]

theorem countTerminated_on_finished (s : FfprobeLauncher) (e : ExitEvent) :
    countTerminated (s.on_finished e).2 ≤ 1 := by
  cases e with
  | success =>
    show countTerminated s.at_finalization.2 ≤ 1
    simp [FfprobeLauncher.at_finalization, countTerminated]
  | failure termLike msg =>
    show countTerminated
        (if s.termSignaled && termLike then s.at_termination
         else s.at_finalization_with_error (msg ++ "\n\nCommand:\n" ++ s.cmd)).2 ≤ 1
    split
    · simp [FfprobeLauncher.at_termination, countTerminated]
    · simp

/-- Claim C10: `terminate()` is idempotent and harmless — (1) on a job holding no
live launcher (a Queued job, or any job past a terminal transition, which
always clears both launchers) it is the identity (and, being total, raises
nothing); (2) a second `terminate()` changes nothing beyond the first;
(3) a job just marked Terminated is untouched by a further `terminate()`;
(4) one supervised probe run delivers at most one `terminated` event no
matter what preceded it (the single exit notification is the only source of
that event). -/
theorem C10_terminate_idempotent :
    (∀ j : Job, j.ffprobe = none → j.ffmpeg = none → j.terminate = j)
    ∧ (∀ j : Job, j.terminate.terminate = j.terminate)
    ∧ (∀ j : Job, j.manage_termination.1.terminate = j.manage_termination.1)
    ∧ (∀ (s : FfprobeLauncher) (lines : List String) (e : ExitEvent),
        countTerminated (s.runEvents lines e).2 ≤ 1) := by
  refine ⟨?_, ?_, ?_, ?_⟩
  · intro j h1 h2
    cases j
    simp only [Job.terminate] at *
    simp_all
  · intro j
    cases j with
    | mk a b c d e f g h fp fm st pr er ts =>
      cases fp <;> cases fm <;> rfl
  · intro j
    rfl
  · intro s lines e
    unfold FfprobeLauncher.runEvents
    simpa [countTerminated_append, countTerminated_processLines]
      using countTerminated_on_finished (s.processLines lines).1 e

/-- Claim C10 witness: parts (1) and (4) instantiated at a concrete queued job and
a concrete twice-terminated probe run. -/
theorem C10_witness :
    (Job.create 9 "/videos/w9.mkv" false "" "").terminate
      = Job.create 9 "/videos/w9.mkv" false "" ""
    ∧ countTerminated
        (((FfprobeLauncher.init "c").terminate.terminate.runEvents ["125"]
          (ExitEvent.failure true "m")).2) ≤ 1 :=
  ⟨C10_terminate_idempotent.1 _ rfl rfl,
   C10_terminate_idempotent.2.2.2 (FfprobeLauncher.init "c").terminate.terminate
     ["125"] (ExitEvent.failure true "m")⟩

end Increasevol
